import Mathlib

/-!
Verification development for the chromiumoxide handler core.

This file shallowly embeds the Rust sources
  * `chromeoxid_types/src/lib.rs`  (wire types: `MethodCall`, `CdpEvent`,
    `Response`, `Message`, the `Method`/`Command` traits),
  * `src/page.rs`                  (cookie validation and `set_cookie`),
  * `src/handler/target.rs`        (the `Target` state machine),
and proves or refutes the specified properties against those embeddings.

Conventions.
  * Machine integers (`usize`) are modelled as `Nat`; the values involved
    (call ids, error codes) never approach overflow in the claims.
  * JSON values (`serde_json::Value`) are the inductive `Json` below.
  * Fallible Rust code (`serde_json::Result`, panicking `unwrap`/`todo!`)
    is modelled with `Option`/`Except`.
  * Asynchronous channels are modelled by explicit message lists and
    poll functions returning the new state together with the emitted
    event and the replies sent on oneshot channels.
-/

/-! ### String helpers

Lean's own `String.splitOn` and `String.startsWith` are compiled by
well-founded recursion and do not reduce inside the kernel, so the Rust
string operations (`str::split`, `str::starts_with`) are modelled by
structurally recursive functions on the character list of the string. -/

/-- Split a character list at every occurrence of `c` (Rust `str::split`:
the result is never empty, and empty segments are kept). -/
def charsSplit (c : Char) : List Char → List (List Char)
  | [] => [[]]
  | x :: xs =>
    if x = c then [] :: charsSplit c xs
    else
      match charsSplit c xs with
      | [] => [[x]]
      | y :: ys => (x :: y) :: ys

/-- Rust `str::split(c)` as a list of strings. -/
def strSplit (s : String) (c : Char) : List String :=
  (charsSplit c s.data).map String.mk

/-- Does `pattern` head the character list `s`? -/
def charsStart : (pattern s : List Char) → Bool
  | [], _ => true
  | _ :: _, [] => false
  | a :: as, b :: bs => a == b && charsStart as bs

/-- Rust `str::starts_with(pattern)`. -/
def strStarts (s pattern : String) : Bool :=
  charsStart pattern.data s.data

/-- A JSON value, the model of `serde_json::Value`. -/
inductive Json where
  | null : Json
  | bool (b : Bool) : Json
  | num (n : Int) : Json
  | str (s : String) : Json
  | arr (items : List Json) : Json
  | obj (fields : List (String × Json)) : Json


namespace Json

/-- `Value::get(key)` on a JSON object: the first field with the given key.
Non-objects have no fields. -/
def getField : Json → String → Option Json
  | .obj fields, key => fields.lookup key
  | _, _ => none

/-- `Value::as_str()`: the string content, when the value is a string. -/
def asStr : Json → Option String
  | .str s => some s
  | _ => none

/-- Deserializing a `usize` field (e.g. `CallId(usize)`): a non-negative
JSON number. -/
def asUsize : Json → Option Nat
  | .num n => if 0 ≤ n then some n.toNat else none
  | _ => none

end Json

/-! ## `chromeoxid_types/src/lib.rs` — the `Method` trait -/

namespace Method

/-- `Method::split` from `chromeoxid_types/src/lib.rs` (lines 127–141):
`identifier.split('.')` with two `iter.next().unwrap()` calls.  The first
`next()` on Rust's `split` always yields an element; the second panics when
the identifier contains no `.`.  The panic is modelled by `none`.  Any parts
after the second are dropped, as in the source. -/
def split (identifier : String) : Option (String × String) :=
  match strSplit identifier '.' with
  | domain :: method :: _ => some (domain, method)
  | _ => none

/-- `Method::domain_name`: the first component of `split`. -/
def domain_name (identifier : String) : Option String :=
  (split identifier).map Prod.fst

/-- `Method::method_name`: the second component of `split` — the standalone
name inside the domain (`removeNode` for `DOM.removeNode`). -/
def method_name (identifier : String) : Option String :=
  (split identifier).map Prod.snd

end Method

/-! ## `chromeoxid_types/src/lib.rs` — commands and the outbound call -/

/-- A protocol command, abstracted over the `Command` trait: its full
`Domain.method` identifier and its serde-serialized parameter object
(`serde_json::to_value(self)`). -/
structure Cmd where
  identifier : String
  params : Json


/-- `MethodCall` from `chromeoxid_types/src/lib.rs` (lines 23–32). -/
structure MethodCall where
  id : Nat
  method : String
  params : Json


/-- `Command::create_call` (lines 55–61): builds the outbound `MethodCall`.
The source sets `method: self.method_name()` — the standalone name produced
by `Method::split`, not the full identifier.  `none` models the panic of
`method_name` on a dot-free identifier. -/
def Command.create_call (cmd : Cmd) (call_id : Nat) : Option MethodCall :=
  (Method.method_name cmd.identifier).map fun m =>
    { id := call_id, method := m, params := cmd.params }

/-! ## `chromeoxid_types/src/lib.rs` — inbound events, responses, messages -/

/-- `CdpEvent` from `chromeoxid_types/src/lib.rs` (lines 88–94): the raw
inbound event.  The struct has exactly two fields, `method` and `params`;
it carries no top-level `sessionId` field. -/
structure CdpEvent where
  method : String
  params : Json


/-- `impl Event for CdpEvent` (lines 102–106):
`self.params.get("sessionId").and_then(|x| x.as_str())` — the session id is
looked up inside `params`. -/
def CdpEvent.session_id (e : CdpEvent) : Option String :=
  (e.params.getField "sessionId").bind Json.asStr

/-- Serde deserialization of `CdpEvent` from a JSON frame: the frame must be
an object with a string `method` field and a `params` field of any JSON
type; unknown fields (such as `id` or a top-level `sessionId`) are ignored,
as serde does by default. -/
def CdpEvent.parse (j : Json) : Option CdpEvent :=
  match j with
  | .obj _ => do
    let m ← j.getField "method"
    let ms ← m.asStr
    let p ← j.getField "params"
    pure { method := ms, params := p }
  | _ => none

/-- `Error` from `chromeoxid_types/src/lib.rs` (lines 163–169). -/
structure Error where
  code : Nat
  message : String


/-- Serde deserialization of `Error`: object with a `usize` `code` and a
string `message`. -/
def Error.parse (j : Json) : Option Error :=
  match j with
  | .obj _ => do
    let c ← j.getField "code"
    let cn ← c.asUsize
    let m ← j.getField "message"
    let ms ← m.asStr
    pure { code := cn, message := ms }
  | _ => none

/-- `Response` from `chromeoxid_types/src/lib.rs` (lines 145–153). -/
structure Response where
  id : Nat
  result : Option Json
  error : Option Error


/-- Serde deserialization of `Response`: requires an `id` (a `CallId`, i.e.
a non-negative number); `result` is any JSON value when present; `error`,
when present, must itself deserialize as an `Error`. -/
def Response.parse (j : Json) : Option Response :=
  match j with
  | .obj _ => do
    let i ← j.getField "id"
    let n ← i.asUsize
    let err ← match j.getField "error" with
      | none => pure none
      | some e => (Error.parse e).map some
    pure { id := n, result := j.getField "result", error := err }
  | _ => none

/-- `Message` from `chromeoxid_types/src/lib.rs` (lines 155–161). -/
inductive Message where
  | event (e : CdpEvent) : Message
  | response (r : Response) : Message


/-- Deserialization of `Message`: the enum is `#[serde(untagged)]` with the
`Event` variant declared first, so serde tries `CdpEvent` first and falls
back to `Response`. -/
def Message.parse (j : Json) : Option Message :=
  match CdpEvent.parse j with
  | some e => some (Message.event e)
  | none => (Response.parse j).map Message.response

/-! ## `src/page.rs` — cookie validation and `set_cookie` -/

/-- The handler error type `crate::error::CdpError` (its source file is not
under src/; only the two constructors used by `page.rs` are modelled:
`CdpError::msg` and `CdpError::NotFound`). -/
inductive CdpError where
  | msg (s : String) : CdpError
  | notFound : CdpError
  deriving DecidableEq, Repr

/-- `validate_cookie_url` from `src/page.rs` (lines 604–612), branch by
branch: `data:` urls are rejected with one message, every other url besides
`about:blank` with another, and only `about:blank` passes. -/
def validate_cookie_url (url : String) : Except CdpError Unit :=
  if strStarts url "data:" then
    Except.error (CdpError.msg "Data URL page can not have cookie")
  else if url ≠ "about:blank" then
    Except.error (CdpError.msg "Blank page can not have cookie")
  else
    Except.ok ()

/-- `CookieParam` (generated protocol type, external to src/): only the
fields `page.rs` touches are modelled. -/
structure CookieParam where
  name : String
  value : String
  url : Option String

/-- `DeleteCookiesParams` (generated protocol type, external to src/):
`from_cookie` copies the name and url. -/
structure DeleteCookiesParams where
  name : String
  url : Option String

/-- `DeleteCookiesParams::from_cookie` (generated code, external to src/). -/
def DeleteCookiesParams.from_cookie (c : CookieParam) : DeleteCookiesParams :=
  { name := c.name, url := c.url }

/-- A protocol command dispatched by `Page::set_cookie` via `execute`. -/
inductive CookieRpc where
  | deleteCookies (p : DeleteCookiesParams) : CookieRpc
  | setCookies (cs : List CookieParam) : CookieRpc

/-- `Page::set_cookie` from `src/page.rs` (lines 403–421).  `page_url` is
the result of the `self.url()` channel round-trip (not a protocol RPC).
The returned list records the protocol commands dispatched through
`execute`, in order; remote command failures are outside the claims, so a
dispatched pair is paired with `Except.ok`. -/
def Page.set_cookie (cookie : CookieParam) (page_url : Option String) :
    Except CdpError Unit × List CookieRpc :=
  match cookie.url with
  | some url =>
    match validate_cookie_url url with
    | Except.error e => (Except.error e, [])
    | Except.ok _ =>
      (Except.ok (),
        [CookieRpc.deleteCookies (DeleteCookiesParams.from_cookie cookie),
         CookieRpc.setCookies [cookie]])
  | none =>
    match page_url with
    | none => (Except.error (CdpError.msg "Page url not found"), [])
    | some url =>
      match validate_cookie_url url with
      | Except.error e => (Except.error e, [])
      | Except.ok _ =>
        let cookie :=
          if strStarts url "http" then { cookie with url := some url } else cookie
        (Except.ok (),
          [CookieRpc.deleteCookies (DeleteCookiesParams.from_cookie cookie),
           CookieRpc.setCookies [cookie]])

/-- The url `set_cookie` validates: the cookie's own url, or else the
page's current url (`src/page.rs` lines 405–412). -/
def effectiveCookieUrl (cookie : CookieParam) (page_url : Option String) :
    Option String :=
  match cookie.url with
  | some u => some u
  | none => page_url

/-! ## `src/handler/target.rs` — the Target state machine

`target.rs` is in src/; its collaborators `crate::cmd::CommandChain`,
`crate::handler::frame::FrameManager`, `crate::handler::network`,
`crate::handler::emulation`, and `chromiumoxide_types::Request` are not,
so those are modelled from the spec (sections 3, 4.2–4.5), each marked in
its doc comment.  Oneshot senders are modelled as numeric tokens; a poll
returns, besides the new state, the emitted `TargetEvent` and the list of
replies sent on such senders during the pass. -/

/-- Modelled from the spec: `chromiumoxide_types::Request` (spec section 3),
which is not in the provided `chromeoxid_types/src/lib.rs`:
`{method, params, session_id?}`. -/
structure Request where
  method : String
  session_id : Option String
  params : Json

/-- `Request::new(method, params)`: no session id yet. -/
def Request.new (method : String) (params : Json) : Request :=
  { method := method, session_id := none, params := params }

/-- The default per-command timeout (spec section 6, `request_timeout`);
its concrete value is irrelevant to the claims. -/
def requestTimeout : Nat := 30000

/-- Modelled from the spec: `crate::cmd::CommandChain` (spec section 4.2),
whose source file is not under src/: an ordered list of `(method, params)`
with a shared deadline and a cursor; `outstanding` is the last emitted,
not yet acknowledged method; `timed_out` records that the deadline error
was already reported once. -/
structure CommandChain where
  items : List (String × Json)
  cursor : Nat
  outstanding : Option String
  deadline : Nat
  timed_out : Bool

/-- The outcome of one `CommandChain::poll` (spec section 4.2):
`Ready(None)` / `Ready(Some(Ok((method, params))))` /
`Ready(Some(Err(DeadlineExceeded)))` / `Pending`. -/
inductive ChainPoll where
  | done : ChainPoll
  | emit (method : String) (params : Json) : ChainPoll
  | timeout : ChainPoll
  | pending : ChainPoll

/-- Modelled from the spec: `CommandChain::new` — cursor 0, nothing
outstanding, deadline proportional to the number of items (the chain is
created at the start of the pass, taken as instant 0). -/
def CommandChain.new (items : List (String × Json)) : CommandChain :=
  { items := items, cursor := 0, outstanding := none,
    deadline := requestTimeout * items.length, timed_out := false }

/-- Modelled from the spec (section 4.2): `CommandChain::poll(now)`.
Completed when the cursor is past the end; a deadline error is reported
once and then the chain reads as completed; pending while a request is
outstanding; otherwise the current item is emitted and marked
outstanding. -/
def CommandChain.poll (c : CommandChain) (now : Nat) : CommandChain × ChainPoll :=
  if c.items.length ≤ c.cursor then (c, ChainPoll.done)
  else if c.deadline ≤ now then
    if c.timed_out then (c, ChainPoll.done)
    else ({ c with timed_out := true }, ChainPoll.timeout)
  else if c.outstanding.isSome then (c, ChainPoll.pending)
  else
    match c.items[c.cursor]? with
    | some (m, p) => ({ c with outstanding := some m }, ChainPoll.emit m p)
    | none => (c, ChainPoll.done)

/-- Modelled from the spec (section 4.2):
`CommandChain::received_response(method)` — advance the cursor when the
method matches the outstanding one; ignore others. -/
def CommandChain.received_response (c : CommandChain) (method : String) :
    CommandChain :=
  if c.outstanding = some method then
    { c with cursor := c.cursor + 1, outstanding := none }
  else c

/-- Modelled from the spec (sections 3 and 4.3): a frame as the
FrameManager tracks it — id, current url, and the lifecycle events
observed for the current loader. -/
structure Frame where
  id : String
  url : Option String
  lifecycle : List String

/-- `Frame::is_loaded` (spec section 4.3): the `load` lifecycle event has
been observed for the current loader. -/
def Frame.is_loaded (f : Frame) : Bool := f.lifecycle.contains "load"

/-- An event yielded by `FrameManager::poll` (spec section 4.3, Output). -/
inductive FrameEvent where
  | navigationRequest (id : Nat) (req : Request) : FrameEvent
  | navigationResult (ok : Bool) : FrameEvent

/-- Modelled from the spec: `crate::handler::frame::FrameManager`
(section 4.3), whose source file is not under src/.  Only the state the
claims touch is kept: the main frame and the queue of events the manager
yields to the Target; child frames are not tracked. -/
structure FrameManager where
  main_frame : Option Frame
  pending_events : List FrameEvent

/-- Modelled from the spec (section 4.3, Init chain):
`FrameManager::init_commands()`. -/
def FrameManager.init_commands : CommandChain :=
  CommandChain.new
    [("Page.enable", Json.obj []),
     ("Page.getFrameTree", Json.obj []),
     ("Page.setLifecycleEventsEnabled", Json.obj [("enabled", Json.bool true)]),
     ("Runtime.enable", Json.obj []),
     ("Runtime.runIfWaitingForDebugger", Json.obj [])]

/-- The root of the `Page.getFrameTree` result that the claims consume
(generated protocol type, external to src/): the main frame's id and
url.  Child frames are irrelevant to the claims and elided. -/
structure FrameTree where
  id : String
  url : Option String

/-- Modelled from the spec (section 4.3): ingesting the initial
`frameTree` snapshot installs the root as the main frame with a fresh
lifecycle. -/
def FrameManager.on_frame_tree (m : FrameManager) (ft : FrameTree) :
    FrameManager :=
  { m with main_frame := some { id := ft.id, url := ft.url, lifecycle := [] } }

/-- Modelled from the spec (section 4.3): `frameNavigated` on the main
frame replaces its url and clears its lifecycle set; child frames are not
tracked in this model. -/
def FrameManager.on_frame_navigated (m : FrameManager) (f : FrameTree) :
    FrameManager :=
  match m.main_frame with
  | some mf =>
    if mf.id = f.id then
      { m with main_frame := some { id := mf.id, url := f.url, lifecycle := [] } }
    else m
  | none => m

/-- Modelled from the spec (section 4.3): a lifecycle event for the main
frame is added to its lifecycle set. -/
def FrameManager.on_page_lifecycle_event (m : FrameManager)
    (frame_id name : String) : FrameManager :=
  match m.main_frame with
  | some mf =>
    if mf.id = frame_id then
      { m with main_frame := some { mf with lifecycle := mf.lifecycle ++ [name] } }
    else m
  | none => m

/-- Modelled from the spec (section 4.3): within-document navigation
updates the main frame's url without resetting its lifecycle. -/
def FrameManager.on_frame_navigated_within_document (m : FrameManager)
    (frame_id url : String) : FrameManager :=
  match m.main_frame with
  | some mf =>
    if mf.id = frame_id then
      { m with main_frame := some { mf with url := some url } }
    else m
  | none => m

/-- Modelled from the spec: the remaining FrameManager event handlers
concern child frames and execution contexts, which this model does not
track; they leave the modelled state unchanged. -/
def FrameManager.on_other_event (m : FrameManager) : FrameManager := m

/-- Modelled from the spec: `crate::handler::network::NetworkManager`
(section 4.4), whose source file is not under src/: it correlates events
by request id; only the request-id log matters to the claims. -/
structure NetworkManager where
  request_ids : List String

/-- Modelled from the spec (section 4.4, Init chain):
`NetworkManager::init_commands()`. -/
def NetworkManager.init_commands : CommandChain :=
  CommandChain.new [("Network.enable", Json.obj [])]

/-- Modelled from the spec (section 4.4): a network/fetch event records
its request id. -/
def NetworkManager.on_request_event (m : NetworkManager) (request_id : String) :
    NetworkManager :=
  { m with request_ids := m.request_ids ++ [request_id] }

/-- The viewport configuration (spec section 6). -/
structure Viewport where
  width : Nat
  height : Nat
  mobile : Bool
  has_touch : Bool

/-- Modelled from the spec: `crate::handler::emulation::EmulationManager`
(section 4.5), whose source file is not under src/. -/
structure EmulationManager where
  applied : Option Viewport

/-- Modelled from the spec (section 4.5):
`EmulationManager::init_commands(&viewport)`. -/
def EmulationManager.init_commands (_m : EmulationManager) (v : Viewport) :
    CommandChain :=
  CommandChain.new
    [("Emulation.setDeviceMetricsOverride",
       Json.obj [("width", Json.num v.width), ("height", Json.num v.height),
                 ("mobile", Json.bool v.mobile)]),
     ("Emulation.setTouchEmulationEnabled",
       Json.obj [("enabled", Json.bool v.has_touch)])]

/-- `TargetInfo` (generated protocol type, external to src/): the fields
`target.rs` reads. -/
structure TargetInfo where
  target_id : String
  type : String
  browser_context_id : Option String
  opener_id : Option String

/-- Modelled from the spec: `crate::cmd::CommandMessage`, whose source
file is not under src/ — a user command plus its reply sender (the sender
is a numeric token here). -/
structure CommandMessage where
  method : String
  params : Json
  sender : Nat

/-- `TargetMessage` from `src/handler/target.rs` (lines 440–449); reply
senders are numeric tokens. -/
inductive TargetMessage where
  | command (c : CommandMessage) : TargetMessage
  | mainFrame (tx : Nat) : TargetMessage
  | url (tx : Nat) : TargetMessage
  | waitForNavigation (tx : Nat) : TargetMessage

/-- `TargetEvent` from `src/handler/target.rs` (lines 401–413). -/
inductive TargetEvent where
  | request (r : Request) : TargetEvent
  | navigationRequest (id : Nat) (r : Request) : TargetEvent
  | navigationResult (ok : Bool) : TargetEvent
  | requestTimeout : TargetEvent
  | command (c : CommandMessage) : TargetEvent

/-- A value sent on a oneshot sender during a poll pass: the resolution of
a `WaitForNavigation`, `MainFrame` or `Url` reply, or the page handed to
the creation initiator. -/
inductive Reply where
  | nav (tx : Nat) (r : Except CdpError String) : Reply
  | mainFrame (tx : Nat) (r : Option String) : Reply
  | url (tx : Nat) (r : Option String) : Reply
  | page (tx : Nat) : Reply

/-- `crate::handler::page::PageHandle` (external to src/): the Target-side
half is the receiver of the control channel, modelled as the list of
messages currently queued on it. -/
structure PageHandle where
  rx : List TargetMessage

/-- `TargetInit` from `src/handler/target.rs` (lines 416–424). -/
inductive TargetInit where
  | initializingFrame (cmds : CommandChain) : TargetInit
  | initializingNetwork (cmds : CommandChain) : TargetInit
  | initializingPage (cmds : CommandChain) : TargetInit
  | initializingEmulation (cmds : CommandChain) : TargetInit
  | attachToTarget : TargetInit
  | initialized : TargetInit

/-- `TargetInit::commands_mut` (lines 427–436), read side: the chain held
by the four `Initializing*` states. -/
def TargetInit.commands : TargetInit → Option CommandChain
  | TargetInit.initializingFrame cmd => some cmd
  | TargetInit.initializingNetwork cmd => some cmd
  | TargetInit.initializingPage cmd => some cmd
  | TargetInit.initializingEmulation cmd => some cmd
  | TargetInit.attachToTarget => none
  | TargetInit.initialized => none

/-- `TargetInit::commands_mut`, write side: writing through the mutable
borrow replaces the chain of an `Initializing*` state and is a no-op on
the chainless states. -/
def TargetInit.with_commands : TargetInit → CommandChain → TargetInit
  | TargetInit.initializingFrame _, c => TargetInit.initializingFrame c
  | TargetInit.initializingNetwork _, c => TargetInit.initializingNetwork c
  | TargetInit.initializingPage _, c => TargetInit.initializingPage c
  | TargetInit.initializingEmulation _, c => TargetInit.initializingEmulation c
  | TargetInit.attachToTarget, _ => TargetInit.attachToTarget
  | TargetInit.initialized, _ => TargetInit.initialized

/-- The position of a state in the init pipeline
`AttachToTarget → InitializingFrame → InitializingNetwork →
InitializingPage → InitializingEmulation → Initialized`; each state has a
distinct rank, so rank monotonicity along a trace is exactly "linear, no
regressions, no state re-entered". -/
def TargetInit.rank : TargetInit → Nat
  | TargetInit.attachToTarget => 0
  | TargetInit.initializingFrame _ => 1
  | TargetInit.initializingNetwork _ => 2
  | TargetInit.initializingPage _ => 3
  | TargetInit.initializingEmulation _ => 4
  | TargetInit.initialized => 5

/-- `Target` from `src/handler/target.rs` (lines 55–81).  The Rust field
`initialize` is named `init_requested` here (its name collides with a
reserved word of the verification toolchain); it is the "should this
target initialize its state" flag set by `Target::initialize()`. -/
structure Target where
  info : TargetInfo
  is_closed : Bool
  frame_manager : FrameManager
  network_manager : NetworkManager
  emulation_manager : EmulationManager
  viewport : Viewport
  session_id : Option String
  page : Option PageHandle
  init_state : TargetInit
  queued_events : List TargetEvent
  wait_until_frame_loaded : List Nat
  initiator : Option Nat
  init_requested : Bool

/-- `Target::new(info)` (lines 86–102). -/
def Target.new (info : TargetInfo) : Target :=
  { info := info
    is_closed := false
    frame_manager := { main_frame := none, pending_events := [] }
    network_manager := { request_ids := [] }
    emulation_manager := { applied := none }
    viewport := { width := 800, height := 600, mobile := false, has_touch := false }
    session_id := none
    page := none
    init_state := TargetInit.attachToTarget
    queued_events := []
    wait_until_frame_loaded := []
    initiator := none
    init_requested := false }

/-- `Target::set_session_id` (lines 104–106). -/
def Target.set_session_id (t : Target) (id : String) : Target :=
  { t with session_id := some id }

/-- `Target::is_initialized` (lines 122–124). -/
def Target.is_initialized (t : Target) : Bool :=
  match t.init_state with
  | TargetInit.initialized => true
  | _ => false

/-- `Target::is_page` (lines 144–146): the body is `todo!()`, which panics
unconditionally; the panic is modelled by `none`.  No `Target` makes it
return a boolean. -/
def Target.is_page (_t : Target) : Option Bool := none

/-- Modelled from the spec (section 9, Open questions): the intended
predicate for the unimplemented `is_page` — `info.type == "page"`. -/
def Target.is_page_spec (t : Target) : Bool := t.info.type == "page"

/-- `Target::create_page` (lines 130–137): create the page handle once a
session id exists. -/
def Target.create_page (t : Target) : Target :=
  match t.page with
  | some _ => t
  | none =>
    match t.session_id with
    | some _ => { t with page := some { rx := [] } }
    | none => t

/-- `GetFrameTreeParams::IDENTIFIER` (generated constant, external to
src/): the full method name of `Page.getFrameTree`. -/
def GetFrameTreeParams.IDENTIFIER : String := "Page.getFrameTree"

/-- `GetFrameTreeParams::response_from_value` (generated code, external to
src/): parse a `Page.getFrameTree` result — `{frameTree: {frame: {id,
url?}, ...}}` — keeping the root frame the claims consume. -/
def GetFrameTreeParams.response_from_value (v : Json) : Option FrameTree := do
  let ft ← v.getField "frameTree"
  let fr ← ft.getField "frame"
  let idj ← fr.getField "id"
  let idv ← idj.asStr
  pure { id := idv, url := (fr.getField "url").bind Json.asStr }

/-- `Target::on_response` from `src/handler/target.rs` (lines 167–183):
first notify the init chain (when one is held) with the method name; then
`Page.getFrameTree` results, when parseable, are fed to the FrameManager;
every other method falls through the empty match arm. -/
def Target.on_response (t : Target) (resp : Response) (method : String) :
    Target :=
  let t1 :=
    match t.init_state.commands with
    | some cmds =>
      let st := t.init_state.with_commands (cmds.received_response method)
      { t with init_state := st }
    | none => t
  if method = GetFrameTreeParams.IDENTIFIER then
    match resp.result.bind GetFrameTreeParams.response_from_value with
    | some ft => { t1 with frame_manager := t1.frame_manager.on_frame_tree ft }
    | none => t1
  else t1

/-- The generated event enum `chromiumoxide_cdp::cdp::events::CdpEvent`
(external to src/), restricted to the variants `Target::on_event` matches
on; payloads carry the fields the handlers consume. -/
inductive CdpEventKind where
  | pageFrameAttached (frame_id parent_frame_id : String) : CdpEventKind
  | pageFrameDetached (frame_id : String) : CdpEventKind
  | pageFrameNavigated (frame : FrameTree) : CdpEventKind
  | pageNavigatedWithinDocument (frame_id url : String) : CdpEventKind
  | runtimeExecutionContextCreated (frame_id : String) : CdpEventKind
  | runtimeExecutionContextDestroyed (ctx : Nat) : CdpEventKind
  | runtimeExecutionContextsCleared : CdpEventKind
  | pageLifecycleEvent (frame_id name : String) : CdpEventKind
  | pageFrameStartedLoading (frame_id : String) : CdpEventKind
  | fetchRequestPaused (request_id : String) : CdpEventKind
  | fetchAuthRequired (request_id : String) : CdpEventKind
  | networkRequestWillBeSent (request_id : String) : CdpEventKind
  | networkRequestServedFromCache (request_id : String) : CdpEventKind
  | networkResponseReceived (request_id : String) : CdpEventKind
  | networkLoadingFinished (request_id : String) : CdpEventKind
  | networkLoadingFailed (request_id : String) : CdpEventKind
  | other (method : String) (params : Json) : CdpEventKind

/-- `Target::on_event` from `src/handler/target.rs` (lines 185–230):
route frame-domain events to the FrameManager and network/fetch events to
the NetworkManager; everything else is dropped. -/
def Target.on_event (t : Target) (ev : CdpEventKind) : Target :=
  match ev with
  | CdpEventKind.pageFrameAttached _ _ =>
    { t with frame_manager := t.frame_manager.on_other_event }
  | CdpEventKind.pageFrameDetached _ =>
    { t with frame_manager := t.frame_manager.on_other_event }
  | CdpEventKind.pageFrameNavigated f =>
    { t with frame_manager := t.frame_manager.on_frame_navigated f }
  | CdpEventKind.pageNavigatedWithinDocument fid u =>
    { t with frame_manager :=
        t.frame_manager.on_frame_navigated_within_document fid u }
  | CdpEventKind.runtimeExecutionContextCreated _ =>
    { t with frame_manager := t.frame_manager.on_other_event }
  | CdpEventKind.runtimeExecutionContextDestroyed _ =>
    { t with frame_manager := t.frame_manager.on_other_event }
  | CdpEventKind.runtimeExecutionContextsCleared =>
    { t with frame_manager := t.frame_manager.on_other_event }
  | CdpEventKind.pageLifecycleEvent fid name =>
    { t with frame_manager := t.frame_manager.on_page_lifecycle_event fid name }
  | CdpEventKind.pageFrameStartedLoading _ =>
    { t with frame_manager := t.frame_manager.on_other_event }
  | CdpEventKind.fetchRequestPaused rid =>
    { t with network_manager := t.network_manager.on_request_event rid }
  | CdpEventKind.fetchAuthRequired rid =>
    { t with network_manager := t.network_manager.on_request_event rid }
  | CdpEventKind.networkRequestWillBeSent rid =>
    { t with network_manager := t.network_manager.on_request_event rid }
  | CdpEventKind.networkRequestServedFromCache rid =>
    { t with network_manager := t.network_manager.on_request_event rid }
  | CdpEventKind.networkResponseReceived rid =>
    { t with network_manager := t.network_manager.on_request_event rid }
  | CdpEventKind.networkLoadingFinished rid =>
    { t with network_manager := t.network_manager.on_request_event rid }
  | CdpEventKind.networkLoadingFailed rid =>
    { t with network_manager := t.network_manager.on_request_event rid }
  | CdpEventKind.other _ _ => t

/-- `Target::page_init_commands` from `src/handler/target.rs`
(lines 378–398): `Target.setAutoAttach {flatten, autoAttach,
waitForDebuggerOnStart}`, then `Performance.enable`, then `Log.enable`. -/
def Target.page_init_commands : CommandChain :=
  CommandChain.new
    [("Target.setAutoAttach",
       Json.obj [("autoAttach", Json.bool true),
                 ("waitForDebuggerOnStart", Json.bool true),
                 ("flatten", Json.bool true)]),
     ("Performance.enable", Json.obj []),
     ("Log.enable", Json.obj [])]

/-- `frame.url.clone().ok_or(CdpError::NotFound)` — the value sent to a
navigation waiter (lines 308 and 334). -/
def Frame.urlOrNotFound (f : Frame) : Except CdpError String :=
  match f.url with
  | some u => Except.ok u
  | none => Except.error CdpError.notFound

/-- Lines 305–311 of `Target::poll`: at the top of the loop, when the main
frame exists and is loaded, every sender parked in
`wait_until_frame_loaded` is popped (`Vec::pop`, so in reverse order of
parking) and sent the frame's url or a not-found error. -/
def Target.resolveWaiters (t : Target) : Target × List Reply :=
  match t.frame_manager.main_frame with
  | some f =>
    if f.is_loaded then
      ({ t with wait_until_frame_loaded := [] },
       t.wait_until_frame_loaded.reverse.map fun tx => Reply.nav tx f.urlOrNotFound)
    else (t, [])
  | none => (t, [])

/-- Lines 320–342 of `Target::poll`: one control message.  `Command`s are
queued as `TargetEvent`s; `MainFrame` and `Url` are answered inline from
the FrameManager; `WaitForNavigation` is answered inline when the main
frame exists and is loaded, and parked in `wait_until_frame_loaded`
otherwise. -/
def Target.processMessage (t : Target) (m : TargetMessage) :
    Target × List Reply :=
  match m with
  | TargetMessage.command c =>
    ({ t with queued_events := t.queued_events ++ [TargetEvent.command c] }, [])
  | TargetMessage.mainFrame tx =>
    (t, [Reply.mainFrame tx (t.frame_manager.main_frame.map Frame.id)])
  | TargetMessage.url tx =>
    (t, [Reply.url tx ((t.frame_manager.main_frame).bind Frame.url)])
  | TargetMessage.waitForNavigation tx =>
    match t.frame_manager.main_frame with
    | some f =>
      if f.is_loaded then (t, [Reply.nav tx f.urlOrNotFound])
      else
        ({ t with wait_until_frame_loaded := t.wait_until_frame_loaded ++ [tx] },
         [])
    | none =>
      ({ t with wait_until_frame_loaded := t.wait_until_frame_loaded ++ [tx] },
       [])

/-- Process a list of control messages in order, accumulating replies. -/
def Target.processMessages (t : Target) : List TargetMessage → Target × List Reply
  | [] => (t, [])
  | m :: rest =>
    let p := t.processMessage m
    let q := p.1.processMessages rest
    (q.1, p.2 ++ q.2)

/-- Lines 318–344 of `Target::poll`: when a page handle exists, drain its
receiver (`while let Poll::Ready(Some(msg))`) — every currently queued
message is processed and the channel is left empty.  Without a handle
nothing is received. -/
def Target.processInbox (t : Target) : Target × List Reply :=
  match t.page with
  | none => (t, [])
  | some h => Target.processMessages { t with page := some { rx := [] } } h.rx

/-- Lines 346–357 of `Target::poll`: drain `frame_manager.poll`, queuing
its navigation events as `TargetEvent`s. -/
def Target.drainFrameEvents (t : Target) : Target :=
  let evs := t.frame_manager.pending_events.map fun e =>
    match e with
    | FrameEvent.navigationRequest i r => TargetEvent.navigationRequest i r
    | FrameEvent.navigationResult ok => TargetEvent.navigationResult ok
  { t with
      frame_manager := { t.frame_manager with pending_events := [] },
      queued_events := t.queued_events ++ evs }

/-- Lines 304–362 of `Target::poll`: the message loop.  Iteration one:
resolve parked navigation waiters when the main frame is loaded; return
the first queued event if any; otherwise drain the control channel and
the FrameManager and, when something got queued, run the second iteration
(which resolves waiters again and pops the front event); when nothing is
queued return `none`.  The loop never runs a third iteration: the second
starts with a non-empty queue and returns its head. -/
def Target.pollLoop (t : Target) : Target × Option TargetEvent × List Reply :=
  let r1 := t.resolveWaiters
  match r1.1.queued_events with
  | e :: rest => ({ r1.1 with queued_events := rest }, some e, r1.2)
  | [] =>
    let r2 := r1.1.processInbox
    let t3 := r2.1.drainFrameEvents
    match t3.queued_events with
    | [] => (t3, none, r1.2 ++ r2.2)
    | _ :: _ =>
      let r3 := t3.resolveWaiters
      ({ r3.1 with queued_events := r3.1.queued_events.tail },
       r3.1.queued_events.head?, r1.2 ++ r2.2 ++ r3.2)

/-- Lines 285–301 of `Target::poll` (`Initialized` arm): when a page
creation initiator is waiting and the main frame has finished loading,
create the page handle if the session exists and hand the page over;
otherwise the initiator stays parked. -/
def Target.handleInitiator (t : Target) : Target × List Reply :=
  match t.initiator with
  | none => (t, [])
  | some tx =>
    if (t.frame_manager.main_frame.map Frame.is_loaded).getD false then
      let t1 := t.create_page
      match t1.page with
      | some _ => ({ t1 with initiator := none }, [Reply.page tx])
      | none => (t1, [])
    else (t, [])

/-- `Target::poll` from `src/handler/target.rs` (lines 233–363), with an
explicit recursion budget.  The source recurses (`$s.poll($cx, $now)` in
`advance_state!`) after each state advance; every recursive call strictly
increases `init_state.rank`, which is at most 5, so the recursion depth
never exceeds 5 and a budget of 6 reproduces the source exactly.  The
async `Context` argument only carries the waker and is dropped. -/
def Target.pollFuel : Nat → Target → Nat → Target × Option TargetEvent × List Reply
  | 0, t, _ => (t, none, [])
  | fuel + 1, t, now =>
    if t.init_requested = false then (t, none, [])
    else
      match t.init_state with
      | TargetInit.attachToTarget =>
        ({ t with init_state := TargetInit.initializingFrame FrameManager.init_commands },
         some (TargetEvent.request (Request.new "Target.attachToTarget"
           (Json.obj [("targetId", Json.str t.info.target_id),
                      ("flatten", Json.bool true)]))),
         [])
      | TargetInit.initializingFrame cmds =>
        match t.session_id with
        | none => (t, none, [])
        | some _ =>
          match cmds.poll now with
          | (_, ChainPoll.done) =>
            Target.pollFuel fuel
              { t with init_state :=
                  TargetInit.initializingNetwork NetworkManager.init_commands } now
          | (c, ChainPoll.emit m p) =>
            ({ t with init_state := TargetInit.initializingFrame c },
             some (TargetEvent.request
               { method := m, session_id := t.session_id, params := p }), [])
          | (c, ChainPoll.timeout) =>
            ({ t with init_state := TargetInit.initializingFrame c },
             some TargetEvent.requestTimeout, [])
          | (c, ChainPoll.pending) =>
            ({ t with init_state := TargetInit.initializingFrame c }, none, [])
      | TargetInit.initializingNetwork cmds =>
        match cmds.poll now with
        | (_, ChainPoll.done) =>
          Target.pollFuel fuel
            { t with init_state :=
                TargetInit.initializingPage Target.page_init_commands } now
        | (c, ChainPoll.emit m p) =>
          ({ t with init_state := TargetInit.initializingNetwork c },
           some (TargetEvent.request
             { method := m, session_id := t.session_id, params := p }), [])
        | (c, ChainPoll.timeout) =>
          ({ t with init_state := TargetInit.initializingNetwork c },
           some TargetEvent.requestTimeout, [])
        | (c, ChainPoll.pending) =>
          ({ t with init_state := TargetInit.initializingNetwork c }, none, [])
      | TargetInit.initializingPage cmds =>
        match cmds.poll now with
        | (_, ChainPoll.done) =>
          let st := TargetInit.initializingEmulation
            (t.emulation_manager.init_commands t.viewport)
          Target.pollFuel fuel { t with init_state := st } now
        | (c, ChainPoll.emit m p) =>
          ({ t with init_state := TargetInit.initializingPage c },
           some (TargetEvent.request
             { method := m, session_id := t.session_id, params := p }), [])
        | (c, ChainPoll.timeout) =>
          ({ t with init_state := TargetInit.initializingPage c },
           some TargetEvent.requestTimeout, [])
        | (c, ChainPoll.pending) =>
          ({ t with init_state := TargetInit.initializingPage c }, none, [])
      | TargetInit.initializingEmulation cmds =>
        match cmds.poll now with
        | (_, ChainPoll.done) =>
          Target.pollFuel fuel { t with init_state := TargetInit.initialized } now
        | (c, ChainPoll.emit m p) =>
          ({ t with init_state := TargetInit.initializingEmulation c },
           some (TargetEvent.request
             { method := m, session_id := t.session_id, params := p }), [])
        | (c, ChainPoll.timeout) =>
          ({ t with init_state := TargetInit.initializingEmulation c },
           some TargetEvent.requestTimeout, [])
        | (c, ChainPoll.pending) =>
          ({ t with init_state := TargetInit.initializingEmulation c }, none, [])
      | TargetInit.initialized =>
        let r0 := t.handleInitiator
        let r1 := r0.1.pollLoop
        (r1.1, r1.2.1, r0.2 ++ r1.2.2)

/-- `Target::poll(cx, now)`: the budget 6 covers the maximal recursion
depth (see `Target.pollFuel`). -/
def Target.poll (t : Target) (now : Nat) :
    Target × Option TargetEvent × List Reply :=
  Target.pollFuel 6 t now

/-- An operation applied to a `Target` by the Handler: a poll pass, a
response, an event, or the Handler setting the session id after
`Target.attachToTarget` resolves. -/
inductive TargetOp where
  | poll (now : Nat) : TargetOp
  | onResponse (resp : Response) (method : String) : TargetOp
  | onEvent (ev : CdpEventKind) : TargetOp
  | setSessionId (s : String) : TargetOp

/-- Apply one operation to a target (poll keeps the post-state). -/
def Target.applyOp (t : Target) : TargetOp → Target
  | TargetOp.poll now => (t.poll now).1
  | TargetOp.onResponse resp method => t.on_response resp method
  | TargetOp.onEvent ev => t.on_event ev
  | TargetOp.setSessionId s => t.set_session_id s

/-- Run a sequence of operations left to right. -/
def Target.runOps (t : Target) : List TargetOp → Target
  | [] => t
  | op :: rest => (t.applyOp op).runOps rest

/-- A fresh page target that was asked to initialize (the state every
target created by the Handler starts from). -/
def sampleTarget0 : Target :=
  { Target.new { target_id := "T1", type := "page",
                 browser_context_id := none, opener_id := none } with
    init_requested := true }

/-- A target inside the `InitializingFrame` stage with its chain waiting
on `Page.enable`, used to evaluate `on_response`. -/
def sampleFrameTarget : Target :=
  { sampleTarget0 with
    session_id := some "S1"
    init_state := TargetInit.initializingFrame
      { FrameManager.init_commands with outstanding := some "Page.enable" } }

/-- A response carrying an empty result object. -/
def sampleResponse : Response :=
  { id := 1, result := some (Json.obj []), error := none }

/-- An initialized target whose main frame `F0` has loaded
`http://example.com`, with a `WaitForNavigation` message queued on its
control channel. -/
def sampleLoadedTarget : Target :=
  { sampleTarget0 with
    init_state := TargetInit.initialized
    session_id := some "S1"
    frame_manager :=
      { main_frame := some { id := "F0", url := some "http://example.com",
                             lifecycle := ["init", "load"] }
        pending_events := [] }
    page := some { rx := [TargetMessage.waitForNavigation 9] } }

/-- The same target before the load: identical but with no `load`
lifecycle event yet. -/
def sampleUnloadedTarget : Target :=
  { sampleLoadedTarget with
    frame_manager :=
      { main_frame := some { id := "F0", url := some "http://example.com",
                             lifecycle := ["init"] }
        pending_events := [] } }

/-- The loaded target at a later pass: empty control channel, one parked
navigation waiter. -/
def sampleParkedTarget : Target :=
  { sampleLoadedTarget with
    page := some { rx := [] }
    wait_until_frame_loaded := [9] }

/-! ## Structural lemmas about the Target state machine -/

/-- Writing through `commands_mut` never changes which state the machine
is in. -/
lemma TargetInit.with_commands_rank (s : TargetInit) (c : CommandChain) :
    (s.with_commands c).rank = s.rank := by
  cases s <;> rfl

/-- Resolving navigation waiters does not change the init state. -/
lemma Target.resolveWaiters_init_state (t : Target) :
    t.resolveWaiters.1.init_state = t.init_state := by
  unfold Target.resolveWaiters
  split
  · split_ifs <;> rfl
  · rfl

/-- Resolving navigation waiters does not change the queued events. -/
lemma Target.resolveWaiters_queued (t : Target) :
    t.resolveWaiters.1.queued_events = t.queued_events := by
  unfold Target.resolveWaiters
  split
  · split_ifs <;> rfl
  · rfl

/-- Processing one control message does not change the init state. -/
lemma Target.processMessage_init_state (t : Target) (m : TargetMessage) :
    (t.processMessage m).1.init_state = t.init_state := by
  unfold Target.processMessage
  cases m with
  | command c => rfl
  | mainFrame tx => rfl
  | url tx => rfl
  | waitForNavigation tx =>
    dsimp only
    split
    · split_ifs <;> rfl
    · rfl

/-- Processing a message list does not change the init state. -/
lemma Target.processMessages_init_state (ms : List TargetMessage) :
    ∀ t : Target, (t.processMessages ms).1.init_state = t.init_state := by
  induction ms with
  | nil => intro t; rfl
  | cons m rest ih =>
    intro t
    unfold Target.processMessages
    dsimp only
    rw [ih, Target.processMessage_init_state]

/-- Draining the control channel does not change the init state. -/
lemma Target.processInbox_init_state (t : Target) :
    t.processInbox.1.init_state = t.init_state := by
  unfold Target.processInbox
  split
  · rfl
  · rw [Target.processMessages_init_state]

/-- Draining FrameManager events does not change the init state. -/
lemma Target.drainFrameEvents_init_state (t : Target) :
    t.drainFrameEvents.init_state = t.init_state := rfl

/-- The message loop of `poll` does not change the init state. -/
lemma Target.pollLoop_init_state (t : Target) :
    t.pollLoop.1.init_state = t.init_state := by
  unfold Target.pollLoop
  dsimp only
  split
  · rw [Target.resolveWaiters_init_state]
  · split
    · rw [Target.drainFrameEvents_init_state, Target.processInbox_init_state,
        Target.resolveWaiters_init_state]
    · rw [Target.resolveWaiters_init_state, Target.drainFrameEvents_init_state,
        Target.processInbox_init_state, Target.resolveWaiters_init_state]

/-- `create_page` does not change the init state. -/
lemma Target.create_page_init_state (t : Target) :
    t.create_page.init_state = t.init_state := by
  unfold Target.create_page
  split
  · rfl
  · split <;> rfl

/-- Handing the page to the initiator does not change the init state. -/
lemma Target.handleInitiator_init_state (t : Target) :
    t.handleInitiator.1.init_state = t.init_state := by
  unfold Target.handleInitiator
  split
  · rfl
  · split_ifs
    · dsimp only
      split
      · exact Target.create_page_init_state t
      · exact Target.create_page_init_state t
    · rfl

/-- One poll pass never decreases the init-state rank: `poll` either keeps
the current state (possibly updating its chain) or advances to the next
state of the pipeline. -/
lemma Target.pollFuel_rank_le (fuel : Nat) :
    ∀ (t : Target) (now : Nat),
      t.init_state.rank ≤ (Target.pollFuel fuel t now).1.init_state.rank := by
  induction fuel with
  | zero => intro t now; exact Nat.le_refl _
  | succ f ih =>
    intro t now
    unfold Target.pollFuel
    by_cases hr : t.init_requested = false
    · rw [if_pos hr]
    · rw [if_neg hr]
      cases hs : t.init_state with
      | attachToTarget =>
        dsimp only [TargetInit.rank]
        omega
      | initializingFrame cmds =>
        dsimp only
        cases hsid : t.session_id with
        | none =>
          dsimp only
          rw [hs]
        | some s =>
          dsimp only
          rcases cmds.poll now with ⟨c, r⟩
          cases r with
          | done =>
            dsimp only
            refine Nat.le_trans ?_
              (ih { t with session_id := some s, init_state :=
                TargetInit.initializingNetwork NetworkManager.init_commands } now)
            dsimp only [TargetInit.rank]
            omega
          | emit m p => exact Nat.le_refl _
          | timeout => exact Nat.le_refl _
          | pending => exact Nat.le_refl _
      | initializingNetwork cmds =>
        dsimp only
        rcases cmds.poll now with ⟨c, r⟩
        cases r with
        | done =>
          dsimp only
          refine Nat.le_trans ?_
            (ih { t with init_state :=
              TargetInit.initializingPage Target.page_init_commands } now)
          dsimp only [TargetInit.rank]
          omega
        | emit m p => exact Nat.le_refl _
        | timeout => exact Nat.le_refl _
        | pending => exact Nat.le_refl _
      | initializingPage cmds =>
        dsimp only
        rcases cmds.poll now with ⟨c, r⟩
        cases r with
        | done =>
          dsimp only
          have h2 := ih { t with init_state := TargetInit.initializingEmulation (t.emulation_manager.init_commands t.viewport) } now
          refine Nat.le_trans ?_ h2
          dsimp only [TargetInit.rank]
          omega
        | emit m p => exact Nat.le_refl _
        | timeout => exact Nat.le_refl _
        | pending => exact Nat.le_refl _
      | initializingEmulation cmds =>
        dsimp only
        rcases cmds.poll now with ⟨c, r⟩
        cases r with
        | done =>
          dsimp only
          refine Nat.le_trans ?_
            (ih { t with init_state := TargetInit.initialized } now)
          dsimp only [TargetInit.rank]
          omega
        | emit m p => exact Nat.le_refl _
        | timeout => exact Nat.le_refl _
        | pending => exact Nat.le_refl _
      | initialized =>
        dsimp only
        rw [Target.pollLoop_init_state, Target.handleInitiator_init_state, hs]

/-- `on_response` keeps the machine in the same state (only the chain
inside the state and the FrameManager can change). -/
lemma Target.on_response_rank (t : Target) (resp : Response) (method : String) :
    (t.on_response resp method).init_state.rank = t.init_state.rank := by
  unfold Target.on_response
  cases hc : t.init_state.commands with
  | none =>
    dsimp only
    split_ifs
    · split
      · rfl
      · rfl
    · rfl
  | some cmds =>
    dsimp only
    split_ifs
    · split
      · exact TargetInit.with_commands_rank _ _
      · exact TargetInit.with_commands_rank _ _
    · exact TargetInit.with_commands_rank _ _

/-- `on_event` only touches the sub-managers, never the init state. -/
lemma Target.on_event_init_state (t : Target) (ev : CdpEventKind) :
    (t.on_event ev).init_state = t.init_state := by
  unfold Target.on_event
  cases ev <;> rfl

/-- One Handler operation never decreases the init-state rank. -/
lemma Target.applyOp_rank_le (t : Target) (op : TargetOp) :
    t.init_state.rank ≤ (t.applyOp op).init_state.rank := by
  cases op with
  | poll now => exact Target.pollFuel_rank_le 6 t now
  | onResponse resp method =>
    show t.init_state.rank ≤ (t.on_response resp method).init_state.rank
    rw [Target.on_response_rank]
  | onEvent ev =>
    show t.init_state.rank ≤ (t.on_event ev).init_state.rank
    rw [Target.on_event_init_state]
  | setSessionId s => exact Nat.le_refl _

/-- A whole operation sequence never decreases the init-state rank. -/
lemma Target.runOps_rank_le (ops : List TargetOp) :
    ∀ t : Target, t.init_state.rank ≤ (t.runOps ops).init_state.rank := by
  induction ops with
  | nil => intro t; exact Nat.le_refl _
  | cons op rest ih =>
    intro t
    exact Nat.le_trans (Target.applyOp_rank_le t op) (ih (t.applyOp op))

/-- Running a longer part of the trace starts from the state reached by the
shorter part. -/
lemma Target.runOps_append (l1 l2 : List TargetOp) :
    ∀ t : Target, t.runOps (l1 ++ l2) = (t.runOps l1).runOps l2 := by
  induction l1 with
  | nil => intro t; rfl
  | cons op rest ih =>
    intro t
    show (t.applyOp op).runOps (rest ++ l2) = ((t.applyOp op).runOps rest).runOps l2
    exact ih (t.applyOp op)

/-- C7: along every sequence of `poll`, `on_response`, `on_event` and
`set_session_id` operations the init state only moves forward along
`AttachToTarget → InitializingFrame → InitializingNetwork →
InitializingPage → InitializingEmulation → Initialized`: each operation
is rank-non-decreasing, and the rank after any longer part of the trace
dominates the rank after any shorter part.  Since each of the six states
has a distinct rank, non-decreasing rank along the trace is exactly "no
transition goes backwards and no state is re-entered after being
left". -/
theorem target_init_monotone :
    (∀ (t : Target) (op : TargetOp),
      t.init_state.rank ≤ (t.applyOp op).init_state.rank) ∧
    (∀ (t : Target) (ops : List TargetOp) (i j : Nat), i ≤ j →
      (t.runOps (ops.take i)).init_state.rank ≤
        (t.runOps (ops.take j)).init_state.rank) := by
  refine ⟨Target.applyOp_rank_le, ?_⟩
  intro t ops i j hij
  have h1 : ops.take i ++ (ops.take j).drop i = ops.take j := by
    have h := List.take_append_drop i (ops.take j)
    rwa [List.take_take, Nat.min_eq_left hij] at h
  calc (t.runOps (ops.take i)).init_state.rank
      ≤ ((t.runOps (ops.take i)).runOps ((ops.take j).drop i)).init_state.rank :=
        Target.runOps_rank_le _ _
    _ = (t.runOps (ops.take j)).init_state.rank := by
        rw [← Target.runOps_append, h1]

/-- C7 witness: a concrete trace — poll (attach, rank 0 → 1), the Handler
sets the session id, poll again — evaluated at prefixes of lengths 1 and
3. -/
theorem target_init_monotone_witness :
    (sampleTarget0.runOps
        ([TargetOp.poll 0, TargetOp.setSessionId "S1", TargetOp.poll 0].take 1)).init_state.rank ≤
      (sampleTarget0.runOps
        ([TargetOp.poll 0, TargetOp.setSessionId "S1", TargetOp.poll 0].take 3)).init_state.rank :=
  target_init_monotone.2 sampleTarget0
    [TargetOp.poll 0, TargetOp.setSessionId "S1", TargetOp.poll 0] 1 3 (by omega)

/-- C3 (counterexample): polling a fresh page target in `AttachToTarget`
emits the `Target.attachToTarget` request with the target's id and
`flatten: true`, but the init state does NOT remain `AttachToTarget`: the
same poll already advanced it (to `InitializingFrame` holding the
FrameManager's init chain), refuting "does not advance the init state
locally". -/
theorem poll_attach_advances_state :
    (sampleTarget0.poll 0).2.1 = some (TargetEvent.request
      (Request.new "Target.attachToTarget"
        (Json.obj [("targetId", Json.str "T1"), ("flatten", Json.bool true)]))) ∧
    (sampleTarget0.poll 0).1.init_state ≠ TargetInit.attachToTarget := by
  constructor
  · rfl
  · intro h
    exact absurd (congrArg TargetInit.rank h) (by decide)

/-- C3 (amended): with `initialize` set and `init_state = AttachToTarget`,
poll emits exactly one `TargetEvent::Request` for `Target.attachToTarget`
carrying the target's own targetId and `flatten: true` (and no session
id), and in the same call sets `init_state` to
`InitializingFrame(FrameManager::init_commands())`; the machine then makes
no further progress — poll in `InitializingFrame` returns `None` — until
the Handler, on receiving the response, sets the target's `session_id`. -/
theorem poll_attach_amended :
    (∀ (t : Target) (now : Nat),
      t.init_requested = true →
      t.init_state = TargetInit.attachToTarget →
      t.poll now =
        ({ t with init_state := TargetInit.initializingFrame FrameManager.init_commands },
         some (TargetEvent.request (Request.new "Target.attachToTarget"
           (Json.obj [("targetId", Json.str t.info.target_id),
                      ("flatten", Json.bool true)]))),
         [])) ∧
    (∀ (t : Target) (now : Nat) (cmds : CommandChain),
      t.init_requested = true →
      t.init_state = TargetInit.initializingFrame cmds →
      t.session_id = none →
      t.poll now = (t, none, [])) := by
  constructor
  · intro t now hreq hs
    unfold Target.poll Target.pollFuel
    rw [hreq, hs]
    rfl
  · intro t now cmds hreq hs hsid
    unfold Target.poll Target.pollFuel
    rw [hreq, hs]
    dsimp only
    rw [hsid]
    rfl

/-- C3 witness: the amended theorem evaluated at the fresh page target,
then at the advanced state with no session id. -/
theorem poll_attach_amended_witness :
    sampleTarget0.poll 0 =
      ({ sampleTarget0 with
          init_state := TargetInit.initializingFrame FrameManager.init_commands },
       some (TargetEvent.request (Request.new "Target.attachToTarget"
         (Json.obj [("targetId", Json.str "T1"), ("flatten", Json.bool true)]))),
       []) ∧
    ({ sampleTarget0 with
        init_state := TargetInit.initializingFrame FrameManager.init_commands } : Target).poll 0 =
      ({ sampleTarget0 with
          init_state := TargetInit.initializingFrame FrameManager.init_commands }, none, []) :=
  ⟨poll_attach_amended.1 sampleTarget0 0 rfl rfl,
   poll_attach_amended.2
     { sampleTarget0 with
         init_state := TargetInit.initializingFrame FrameManager.init_commands }
     0 FrameManager.init_commands rfl rfl rfl⟩

/-- In the `Initialized` state a poll pass is the initiator hand-off
followed by the message loop. -/
lemma Target.poll_initialized (t : Target) (now : Nat)
    (hreq : t.init_requested = true)
    (hs : t.init_state = TargetInit.initialized) :
    t.poll now =
      ((t.handleInitiator.1.pollLoop).1, (t.handleInitiator.1.pollLoop).2.1,
        t.handleInitiator.2 ++ (t.handleInitiator.1.pollLoop).2.2) := by
  unfold Target.poll Target.pollFuel
  rw [hreq, hs]
  rfl

/-- Without a parked initiator the hand-off step is a no-op. -/
lemma Target.handleInitiator_none (t : Target) (h : t.initiator = none) :
    t.handleInitiator = (t, []) := by
  unfold Target.handleInitiator
  rw [h]

/-- With a loaded main frame, waiter resolution clears the parked list and
answers every parked sender (in reverse parking order) with the frame's
url or a not-found error. -/
lemma Target.resolveWaiters_loaded (t : Target) (f : Frame)
    (hmf : t.frame_manager.main_frame = some f) (hl : f.is_loaded = true) :
    t.resolveWaiters =
      ({ t with wait_until_frame_loaded := [] },
       t.wait_until_frame_loaded.reverse.map fun tx => Reply.nav tx f.urlOrNotFound) := by
  unfold Target.resolveWaiters
  rw [hmf]
  dsimp only
  rw [if_pos hl]

/-- With an unloaded main frame, waiter resolution is a no-op. -/
lemma Target.resolveWaiters_unloaded (t : Target) (f : Frame)
    (hmf : t.frame_manager.main_frame = some f) (hl : f.is_loaded = false) :
    t.resolveWaiters = (t, []) := by
  unfold Target.resolveWaiters
  rw [hmf]
  dsimp only
  rw [if_neg (by simp [hl])]

/-- With no main frame, waiter resolution is a no-op. -/
lemma Target.resolveWaiters_no_frame (t : Target)
    (hmf : t.frame_manager.main_frame = none) :
    t.resolveWaiters = (t, []) := by
  unfold Target.resolveWaiters
  rw [hmf]

/-- C8: handling of `TargetMessage::WaitForNavigation(reply)` by `poll`
(for an initialized target with no parked initiator and nothing else
queued).  (1) If the main frame exists and is loaded, the reply is
resolved in the same pass with the frame's url — or a not-found error when
the frame has no url (`urlOrNotFound`) — and is not parked.  (2) If the
main frame is missing or not loaded, no reply is sent and the sender is
parked at the end of `wait_until_frame_loaded`.  (3) A later poll pass in
which the main frame is loaded resolves every parked sender with the
frame's url (or the not-found error) and empties the parked list; (4) a
pass in which it is still not loaded resolves nothing and keeps the parked
list unchanged, so the reply is resolved exactly in the first later pass
with a loaded main frame. -/
theorem wait_for_navigation_spec :
    (∀ (t : Target) (now tx : Nat) (f : Frame),
      t.init_requested = true →
      t.init_state = TargetInit.initialized →
      t.initiator = none →
      t.queued_events = [] →
      t.wait_until_frame_loaded = [] →
      t.frame_manager.pending_events = [] →
      t.frame_manager.main_frame = some f →
      f.is_loaded = true →
      t.page = some { rx := [TargetMessage.waitForNavigation tx] } →
      (t.poll now).2.2 = [Reply.nav tx f.urlOrNotFound] ∧
      (t.poll now).1.wait_until_frame_loaded = []) ∧
    (∀ (t : Target) (now tx : Nat),
      t.init_requested = true →
      t.init_state = TargetInit.initialized →
      t.initiator = none →
      t.queued_events = [] →
      t.frame_manager.pending_events = [] →
      t.page = some { rx := [TargetMessage.waitForNavigation tx] } →
      (t.frame_manager.main_frame = none ∨
        ∃ f, t.frame_manager.main_frame = some f ∧ f.is_loaded = false) →
      (t.poll now).2.2 = [] ∧
      (t.poll now).1.wait_until_frame_loaded =
        t.wait_until_frame_loaded ++ [tx]) ∧
    (∀ (t : Target) (now : Nat) (f : Frame),
      t.init_requested = true →
      t.init_state = TargetInit.initialized →
      t.initiator = none →
      t.queued_events = [] →
      t.frame_manager.pending_events = [] →
      t.page = some { rx := [] } →
      t.frame_manager.main_frame = some f →
      f.is_loaded = true →
      (t.poll now).2.2 =
        t.wait_until_frame_loaded.reverse.map (fun tx => Reply.nav tx f.urlOrNotFound) ∧
      (t.poll now).1.wait_until_frame_loaded = []) ∧
    (∀ (t : Target) (now : Nat) (f : Frame),
      t.init_requested = true →
      t.init_state = TargetInit.initialized →
      t.initiator = none →
      t.queued_events = [] →
      t.frame_manager.pending_events = [] →
      t.page = some { rx := [] } →
      t.frame_manager.main_frame = some f →
      f.is_loaded = false →
      (t.poll now).2.2 = [] ∧
      (t.poll now).1.wait_until_frame_loaded = t.wait_until_frame_loaded) := by
  refine ⟨?_, ?_, ?_, ?_⟩
  · intro t now tx f hreq hs hini hq hw hpend hmf hl hpage
    rw [Target.poll_initialized t now hreq hs, Target.handleInitiator_none t hini]
    simp only [Target.pollLoop, Target.resolveWaiters_loaded t f hmf hl, hw,
      List.reverse_nil, List.map_nil]
    simp only [Target.processInbox, Target.processMessages, Target.processMessage,
      Target.drainFrameEvents, hq, hw, hpend, hpage, hmf, hl, if_true,
      List.map_nil, List.append_nil, List.nil_append]
    exact ⟨trivial, trivial⟩
  · intro t now tx hreq hs hini hq hpend hpage hcase
    rw [Target.poll_initialized t now hreq hs, Target.handleInitiator_none t hini]
    rcases hcase with hmf | ⟨f, hmf, hl⟩
    · simp only [Target.pollLoop, Target.resolveWaiters_no_frame t hmf]
      simp only [Target.processInbox, Target.processMessages, Target.processMessage,
        Target.drainFrameEvents, hq, hpend, hpage, hmf,
        List.map_nil, List.append_nil, List.nil_append]
      exact ⟨trivial, trivial⟩
    · simp only [Target.pollLoop, Target.resolveWaiters_unloaded t f hmf hl]
      simp only [Target.processInbox, Target.processMessages, Target.processMessage,
        Target.drainFrameEvents, hq, hpend, hpage, hmf, hl, Bool.false_eq_true,
        if_false, List.map_nil, List.append_nil, List.nil_append]
      exact ⟨trivial, trivial⟩
  · intro t now f hreq hs hini hq hpend hpage hmf hl
    rw [Target.poll_initialized t now hreq hs, Target.handleInitiator_none t hini]
    simp only [Target.pollLoop, Target.resolveWaiters_loaded t f hmf hl]
    simp only [Target.processInbox, Target.processMessages, Target.processMessage,
      Target.drainFrameEvents, hq, hpend, hpage, hmf, hl,
      List.map_nil, List.append_nil, List.nil_append]
    exact ⟨trivial, trivial⟩
  · intro t now f hreq hs hini hq hpend hpage hmf hl
    rw [Target.poll_initialized t now hreq hs, Target.handleInitiator_none t hini]
    simp only [Target.pollLoop, Target.resolveWaiters_unloaded t f hmf hl]
    simp only [Target.processInbox, Target.processMessages, Target.processMessage,
      Target.drainFrameEvents, hq, hpend, hpage, hmf, hl,
      List.map_nil, List.append_nil, List.nil_append]
    exact ⟨trivial, trivial⟩

/-- C8 witness: the theorem evaluated on concrete targets — an immediate
resolve on a loaded frame, a park on the same frame before `load`, and the
later resolve of the parked sender. -/
theorem wait_for_navigation_spec_witness :
    (sampleLoadedTarget.poll 0).2.2 = [Reply.nav 9 (Except.ok "http://example.com")] ∧
    (sampleUnloadedTarget.poll 0).1.wait_until_frame_loaded = [9] ∧
    (sampleParkedTarget.poll 0).2.2 = [Reply.nav 9 (Except.ok "http://example.com")] :=
  ⟨(wait_for_navigation_spec.1 sampleLoadedTarget 0 9
      { id := "F0", url := some "http://example.com", lifecycle := ["init", "load"] }
      rfl rfl rfl rfl rfl rfl rfl rfl rfl).1,
   (wait_for_navigation_spec.2.1 sampleUnloadedTarget 0 9 rfl rfl rfl rfl rfl rfl
      (Or.inr ⟨{ id := "F0", url := some "http://example.com", lifecycle := ["init"] },
        rfl, rfl⟩)).2,
   (wait_for_navigation_spec.2.2.1 sampleParkedTarget 0
      { id := "F0", url := some "http://example.com", lifecycle := ["init", "load"] }
      rfl rfl rfl rfl rfl rfl rfl rfl).1⟩

/-- C9: `on_response(resp, method)` always notifies the held init chain —
whatever the method, the chain in the new state is exactly the old chain
after `received_response(method)` (and chainless states stay chainless) —
and `Page.getFrameTree` is the only method that mutates any sub-manager:
for every other method the FrameManager is untouched, and the
NetworkManager and EmulationManager are untouched for every method
including `Page.getFrameTree` itself; when a `Page.getFrameTree` result
parses, it is fed to the FrameManager via `on_frame_tree`. -/
theorem on_response_spec (t : Target) (resp : Response) (method : String) :
    ((t.on_response resp method).init_state.commands =
      (t.init_state.commands).map fun c => c.received_response method) ∧
    (method ≠ GetFrameTreeParams.IDENTIFIER →
      (t.on_response resp method).frame_manager = t.frame_manager) ∧
    (t.on_response resp method).network_manager = t.network_manager ∧
    (t.on_response resp method).emulation_manager = t.emulation_manager ∧
    (method = GetFrameTreeParams.IDENTIFIER →
      ∀ ft, resp.result.bind GetFrameTreeParams.response_from_value = some ft →
        (t.on_response resp method).frame_manager =
          t.frame_manager.on_frame_tree ft) := by
  obtain ⟨info, iscl, fm, nm, em, vp, sid, pg, ist, qe, wl, ini, req⟩ := t
  unfold Target.on_response
  cases ist <;>
  · dsimp only [TargetInit.commands, TargetInit.with_commands, Option.map]
    by_cases hm : method = GetFrameTreeParams.IDENTIFIER
    · rw [if_pos hm]
      cases hft : resp.result.bind GetFrameTreeParams.response_from_value with
      | none =>
        refine ⟨rfl, fun _ => rfl, rfl, rfl, fun _ ft' hft' => ?_⟩
        exact Option.noConfusion hft'
      | some ft =>
        refine ⟨rfl, fun h => absurd hm h, rfl, rfl, fun _ ft' hft' => ?_⟩
        cases hft'
        rfl
    · rw [if_neg hm]
      exact ⟨rfl, fun _ => rfl, rfl, rfl, fun h => absurd h hm⟩

/-- C9 witness: the theorem evaluated at a target in `InitializingFrame`
(outstanding `Page.enable`) receiving a `Runtime.enable` response — the
chain is notified, the sub-managers are untouched. -/
theorem on_response_spec_witness :
    (sampleFrameTarget.on_response sampleResponse "Runtime.enable").init_state.commands =
      (sampleFrameTarget.init_state.commands).map
        (fun c => c.received_response "Runtime.enable") ∧
    (sampleFrameTarget.on_response sampleResponse "Runtime.enable").frame_manager =
      sampleFrameTarget.frame_manager ∧
    (sampleFrameTarget.on_response sampleResponse "Runtime.enable").network_manager =
      sampleFrameTarget.network_manager :=
  ⟨(on_response_spec sampleFrameTarget sampleResponse "Runtime.enable").1,
   (on_response_spec sampleFrameTarget sampleResponse "Runtime.enable").2.1
     (by decide),
   (on_response_spec sampleFrameTarget sampleResponse "Runtime.enable").2.2.1⟩

/-- C10 (code_bug evidence): `Target::is_page` is `todo!()` — it panics
(modelled by `none`) for every target instead of returning a boolean; on
the concrete page target the spec's intended predicate
(`info.type == "page"`) would return `true`, but the implementation
diverges. -/
theorem is_page_unimplemented :
    Target.is_page sampleTarget0 = none ∧
    Target.is_page_spec sampleTarget0 = true ∧
    ∀ t : Target, Target.is_page t = none :=
  ⟨rfl, rfl, fun _ => rfl⟩


/-! ## Claims C1, C2, C6 — wire types -/

/-- C1 (code_bug evidence): evaluating `Command::create_call` at the
command whose full identifier is `DOM.removeNode` (the example from the
source's own doc comments) shows the outbound `MethodCall` carries only the
post-dot `method_name` `removeNode`, not the full identifier — the
serialized frame does not carry the `Domain.method` name the spec
requires. -/
theorem create_call_drops_domain :
    Command.create_call { identifier := "DOM.removeNode", params := Json.obj [] } 1 =
      some { id := 1, method := "removeNode", params := Json.obj [] } ∧
    ({ identifier := "DOM.removeNode", params := Json.obj [] } : Cmd).identifier ≠
      "removeNode" := by
  constructor
  · rfl
  · decide

/-- C2 (counterexample): an inbound event frame with no top-level
`sessionId` envelope field, but with a `sessionId` key inside `params`,
deserializes to a `CdpEvent` whose `session_id()` is `some "S1"` — so
`session_id()` does depend on the `sessionId` key nested inside `params`,
and a frame whose top-level `sessionId` is absent is not mapped to `None`,
refuting the claim. -/
theorem session_id_reads_params :
    CdpEvent.parse
        (Json.obj [("method", Json.str "Network.requestWillBeSent"),
                   ("params", Json.obj [("sessionId", Json.str "S1")])]) =
      some { method := "Network.requestWillBeSent",
             params := Json.obj [("sessionId", Json.str "S1")] } ∧
    (Json.obj [("method", Json.str "Network.requestWillBeSent"),
               ("params", Json.obj [("sessionId", Json.str "S1")])]).getField
        "sessionId" = none ∧
    CdpEvent.session_id
        { method := "Network.requestWillBeSent",
          params := Json.obj [("sessionId", Json.str "S1")] } = some "S1" := by
  refine ⟨rfl, rfl, rfl⟩

/-- C2 (amended): `CdpEvent` carries only `method` and `params`;
`session_id()` returns the string at key `sessionId` inside `params` when
one is present (`None` otherwise), and a top-level `sessionId` envelope
field on the frame is dropped at deserialization, so it is never
consulted. -/
theorem session_id_amended :
    (∀ (m : String) (p : Json) (s : String),
      CdpEvent.session_id { method := m, params := p } = some s ↔
        p.getField "sessionId" = some (Json.str s)) ∧
    (∀ (m : String) (p sv : Json),
      CdpEvent.parse
          (Json.obj [("method", Json.str m), ("params", p), ("sessionId", sv)]) =
        some { method := m, params := p }) := by
  constructor
  · intro m p s
    unfold CdpEvent.session_id
    cases h : p.getField "sessionId" with
    | none => simp
    | some v =>
      cases v <;> simp [Json.asStr]
  · intro m p sv
    rfl

/-- C6 (counterexample): a frame that contains an `id` field alongside a
string `method` and a `params` object parses as `Message::Event`, because
the untagged enum tries the `Event` variant first and serde ignores the
unknown `id` field — refuting "a frame containing an `id` is never parsed
as an Event". -/
theorem message_with_id_parses_as_event :
    (Json.obj [("id", Json.num 7), ("method", Json.str "Page.loadEventFired"),
               ("params", Json.obj [])]).getField "id" = some (Json.num 7) ∧
    Message.parse
        (Json.obj [("id", Json.num 7), ("method", Json.str "Page.loadEventFired"),
                   ("params", Json.obj [])]) =
      some (Message.event
        { method := "Page.loadEventFired", params := Json.obj [] }) := by
  refine ⟨rfl, rfl⟩

/-- C6 (amended): a frame parses as `Message::Event` exactly when it
deserializes as a `CdpEvent` (a string `method` plus a `params` field),
regardless of any `id`; a frame that does not parse as an event parses as
`Message::Response` exactly when it deserializes as a `Response` (which
requires an `id`).  On standard wire traffic — where responses never carry
a `method`/`params` pair and events never carry an `id` — this coincides
with the spec's rule: the second and third conjuncts show a standard
response frame `{id, result}` parses as `Response` and a standard event
frame `{method, params}` parses as `Event`. -/
theorem message_disambiguation_amended :
    (∀ (j : Json),
      (∀ e, Message.parse j = some (Message.event e) ↔ CdpEvent.parse j = some e) ∧
      (CdpEvent.parse j = none →
        ∀ r, Message.parse j = some (Message.response r) ↔
          Response.parse j = some r)) ∧
    (∀ (n : Nat) (res : Json),
      Message.parse (Json.obj [("id", Json.num n), ("result", res)]) =
        some (Message.response { id := n, result := some res, error := none })) ∧
    (∀ (m : String) (p : Json),
      Message.parse (Json.obj [("method", Json.str m), ("params", p)]) =
        some (Message.event { method := m, params := p })) := by
  refine ⟨fun j => ⟨?_, ?_⟩, ?_, ?_⟩
  · intro e
    unfold Message.parse
    cases h : CdpEvent.parse j with
    | none =>
      simp only [Option.map]
      constructor
      · intro hc
        cases hr : Response.parse j <;> rw [hr] at hc <;> simp_all
      · intro hc
        simp_all
    | some e0 => simp
  · intro hnone r
    unfold Message.parse
    rw [hnone]
    cases hr : Response.parse j <;> simp
  · intro n res
    unfold Message.parse
    have hev : CdpEvent.parse (Json.obj [("id", Json.num n), ("result", res)]) =
        none := rfl
    rw [hev]
    unfold Response.parse
    simp [Json.getField, List.lookup, Json.asUsize]
  · intro m p
    rfl

/-! ## Claims C4, C5 — cookie validation -/

/-- C4 (counterexample): the url `data:,x` is not `about:blank`, yet
`validate_cookie_url` rejects it with the message
`Data URL page can not have cookie`, not `Blank page can not have cookie` —
refuting the claim's parenthetical that every other url is rejected with
the latter message. -/
theorem validate_cookie_url_data_message :
    validate_cookie_url "data:,x" =
      Except.error (CdpError.msg "Data URL page can not have cookie") ∧
    CdpError.msg "Data URL page can not have cookie" ≠
      CdpError.msg "Blank page can not have cookie" ∧
    "data:,x" ≠ "about:blank" := by
  refine ⟨rfl, by decide, by decide⟩

/-- Helper: `validate_cookie_url` accepts exactly `about:blank`. -/
lemma validate_cookie_url_ok_iff (url : String) :
    validate_cookie_url url = Except.ok () ↔ url = "about:blank" := by
  unfold validate_cookie_url
  by_cases hd : strStarts url "data:" = true
  · rw [if_pos hd]
    constructor
    · intro h
      exact absurd h (by simp)
    · intro h
      subst h
      exact absurd hd (by decide)
  · rw [if_neg hd]
    by_cases he : url = "about:blank"
    · rw [if_neg (not_not_intro he)]
      simp [he]
    · rw [if_pos he]
      constructor
      · intro h
        exact absurd h (by simp)
      · intro h
        exact absurd h he

/-- Helper: every url other than `about:blank` is rejected. -/
lemma validate_cookie_url_error_of_ne (url : String) (h : url ≠ "about:blank") :
    ∃ e, validate_cookie_url url = Except.error e := by
  unfold validate_cookie_url
  by_cases hd : strStarts url "data:" = true
  · rw [if_pos hd]
    exact ⟨_, rfl⟩
  · rw [if_neg hd, if_pos h]
    exact ⟨_, rfl⟩

/-- C4 (amended): `validate_cookie_url` returns `Ok` only for exactly
`about:blank`; every other url is rejected synchronously — `data:` urls
with the message `Data URL page can not have cookie`, all remaining urls
(in particular every http and https url) with
`Blank page can not have cookie` — and when the effective url (cookie's
own, or else the page's) is not `about:blank`, `set_cookie` errors without
dispatching any DeleteCookies/SetCookies RPC. -/
theorem validate_cookie_url_only_about_blank :
    (∀ url : String, validate_cookie_url url = Except.ok () ↔ url = "about:blank") ∧
    (∀ url : String, strStarts url "data:" = false → url ≠ "about:blank" →
      validate_cookie_url url =
        Except.error (CdpError.msg "Blank page can not have cookie")) ∧
    (∀ url : String, strStarts url "data:" = true →
      validate_cookie_url url =
        Except.error (CdpError.msg "Data URL page can not have cookie")) ∧
    (∀ (cookie : CookieParam) (page_url : Option String),
      (∀ u, effectiveCookieUrl cookie page_url = some u → u ≠ "about:blank") →
      (Page.set_cookie cookie page_url).2 = [] ∧
      ∃ e, (Page.set_cookie cookie page_url).1 = Except.error e) := by
  refine ⟨validate_cookie_url_ok_iff, ?_, ?_, ?_⟩
  · intro url hd hne
    unfold validate_cookie_url
    rw [if_neg (by simp [hd]), if_pos hne]
  · intro url hd
    unfold validate_cookie_url
    rw [if_pos hd]
  · intro cookie page_url hne
    unfold Page.set_cookie
    cases hc : cookie.url with
    | some u =>
      have hu : u ≠ "about:blank" := hne u (by simp [effectiveCookieUrl, hc])
      obtain ⟨e, he⟩ := validate_cookie_url_error_of_ne u hu
      dsimp only
      rw [he]
      exact ⟨rfl, e, rfl⟩
    | none =>
      cases hp : page_url with
      | none => exact ⟨rfl, _, rfl⟩
      | some u =>
        have hu : u ≠ "about:blank" := hne u (by simp [effectiveCookieUrl, hc, hp])
        obtain ⟨e, he⟩ := validate_cookie_url_error_of_ne u hu
        dsimp only
        rw [he]
        exact ⟨rfl, e, rfl⟩

/-- C4 witness: evaluating the amended theorem at the ordinary web url
`https://example.com` — rejected with the `Blank page` message, and
`set_cookie` with that cookie url dispatches no RPC and errors. -/
theorem validate_cookie_url_only_about_blank_witness :
    validate_cookie_url "https://example.com" =
      Except.error (CdpError.msg "Blank page can not have cookie") ∧
    (Page.set_cookie
        { name := "n", value := "v", url := some "https://example.com" }
        none).2 = [] := by
  have h := validate_cookie_url_only_about_blank
  refine ⟨h.2.1 "https://example.com" rfl (by decide), ?_⟩
  refine (h.2.2.2 _ none ?_).1
  intro u hu
  have : u = "https://example.com" := by
    simpa [effectiveCookieUrl] using hu.symm
  subst this
  decide

/-- C5: for every cookie whose effective url (the cookie's own url, or
else the page's current url) is a `data:` url, `set_cookie` returns an
error synchronously and dispatches no DeleteCookies or SetCookies
command. -/
theorem set_cookie_data_url_rejected
    (cookie : CookieParam) (page_url : Option String) (u : String)
    (heff : effectiveCookieUrl cookie page_url = some u)
    (hdata : strStarts u "data:" = true) :
    Page.set_cookie cookie page_url =
      (Except.error (CdpError.msg "Data URL page can not have cookie"), []) := by
  unfold Page.set_cookie
  cases hc : cookie.url with
  | some u0 =>
    have : u0 = u := by
      simpa [effectiveCookieUrl, hc] using heff
    subst this
    dsimp only
    rw [show validate_cookie_url u0 =
          Except.error (CdpError.msg "Data URL page can not have cookie") by
        unfold validate_cookie_url
        rw [if_pos hdata]]
  | none =>
    cases hp : page_url with
    | none => simp [effectiveCookieUrl, hc, hp] at heff
    | some u0 =>
      have : u0 = u := by
        simpa [effectiveCookieUrl, hc, hp] using heff
      subst this
      dsimp only
      rw [show validate_cookie_url u0 =
            Except.error (CdpError.msg "Data URL page can not have cookie") by
          unfold validate_cookie_url
          rw [if_pos hdata]]

/-- C5 witness: a cookie carrying the url `data:text/html,x` is rejected
synchronously with no dispatched RPC. -/
theorem set_cookie_data_url_rejected_witness :
    Page.set_cookie { name := "n", value := "v", url := some "data:text/html,x" }
        none =
      (Except.error (CdpError.msg "Data URL page can not have cookie"), []) :=
  set_cookie_data_url_rejected _ none "data:text/html,x" rfl rfl

/-- C2 witness: the amended theorem evaluated at a concrete event whose
`params` holds `sessionId = "S1"`. -/
theorem session_id_amended_witness :
    CdpEvent.session_id
        { method := "A.b", params := Json.obj [("sessionId", Json.str "S1")] } =
      some "S1" :=
  (session_id_amended.1 "A.b" (Json.obj [("sessionId", Json.str "S1")]) "S1").mpr rfl

/-- C6 witness: the amended theorem evaluated at the concrete frame
`obj [id := 3]`, which does not parse as an event and parses as a
response. -/
theorem message_disambiguation_amended_witness :
    Message.parse (Json.obj [("id", Json.num 3)]) =
      some (Message.response { id := 3, result := none, error := none }) :=
  ((message_disambiguation_amended.1 (Json.obj [("id", Json.num 3)])).2 rfl
    { id := 3, result := none, error := none }).mpr rfl
